import Mathlib

/-!
Shallow embedding of `openid/association.py`: the `Association` value
objects, the `BaseAssociationManager` cache logic, and the response
processing of `DiffieHelmanAssociator.associate`.  The low-level
primitives from `openid.util` (base64, SHA-1, big-integer codecs,
Diffie-Hellman) and the concrete Store are collaborators outside this
repository's source; where a claim needs them they are modelled from
the spec and documented as such.
-/

/-- Byte strings are modelled as lists of naturals (one per byte). -/
abbrev Bytes := List Nat

/-- The `Association` value object from `association.py`: handle, secret, issued, lifetime.
Wall-clock time is an explicit `now : Int` parameter in this embedding. -/
structure Association where
  handle : String
  secret : Bytes
  issued : Int
  lifetime : Int
deriving DecidableEq

/-- Embeds `Association.get_expires_in`: `max(0, issued + lifetime - int(time.time()))`. -/
def Association.get_expires_in (a : Association) (now : Int) : Int :=
  max 0 (a.issued + a.lifetime - now)

/-- The `ConsumerAssociation` record: an `Association` scoped to a `server_url`. -/
structure ConsumerAssociation extends Association where
  server_url : String
deriving DecidableEq

/-- Embeds `ConsumerAssociation.from_expires_in`: builds the association with
`issued = int(time.time())` (the `now` parameter here) and
`lifetime = int(expires_in)`. -/
def ConsumerAssociation.from_expires_in (now expires_in : Int)
    (server_url handle : String) (secret : Bytes) : ConsumerAssociation :=
  { handle := handle, secret := secret, issued := now,
    lifetime := expires_in, server_url := server_url }

/-- One iteration of the loop in `BaseAssociationManager.associate`:
state is `(expired, assoc)`; an entry with `expires_in <= 0` is appended
to `expired`, otherwise it becomes `assoc` when `assoc` is still unset. -/
def BaseAssociationManager.scanStep (now : Int)
    (st : List ConsumerAssociation × Option ConsumerAssociation)
    (current : ConsumerAssociation) :
    List ConsumerAssociation × Option ConsumerAssociation :=
  if current.get_expires_in now ≤ 0 then (st.1 ++ [current], st.2)
  else if st.2.isNone then (st.1, some current)
  else st

/-- The full loop of `BaseAssociationManager.associate` over the list
returned by `get_all(server_url)`, starting from `expired = []`,
`assoc = None`. -/
def BaseAssociationManager.scan (now : Int)
    (assocs : List ConsumerAssociation) :
    List ConsumerAssociation × Option ConsumerAssociation :=
  assocs.foldl (BaseAssociationManager.scanStep now) ([], none)

/-- Observable outcome of one `BaseAssociationManager.associate` call:
the returned handle, the freshly created association (if any), the
expired entries collected by the loop, the list of `update` calls made
to the Store (each with its arguments), and how many times the
handshake collaborator (`self.associator.associate`) ran. -/
structure AssociateOutcome where
  handle : String
  new_assoc : Option ConsumerAssociation
  expired : List ConsumerAssociation
  updates : List (Option ConsumerAssociation × List ConsumerAssociation)
  handshake_calls : Nat
deriving DecidableEq

/-- Embeds `BaseAssociationManager.associate(server_url)`.  `stored` is the
list `get_all(server_url)` returns; `fresh` is the association the
handshake collaborator would produce if invoked.  `update` is called
exactly when `new_assoc or expired` is truthy in the Python source
(a new association object is always truthy; a list is truthy when
non-empty). -/
def BaseAssociationManager.associate (now : Int)
    (stored : List ConsumerAssociation) (fresh : ConsumerAssociation) :
    AssociateOutcome :=
  match (BaseAssociationManager.scan now stored).2 with
  | some assoc =>
    { handle := assoc.handle
      new_assoc := none
      expired := (BaseAssociationManager.scan now stored).1
      updates :=
        if (BaseAssociationManager.scan now stored).1.isEmpty then []
        else [(none, (BaseAssociationManager.scan now stored).1)]
      handshake_calls := 0 }
  | none =>
    { handle := fresh.handle
      new_assoc := some fresh
      expired := (BaseAssociationManager.scan now stored).1
      updates := [(some fresh, (BaseAssociationManager.scan now stored).1)]
      handshake_calls := 1 }

/-- Embeds `BaseAssociationManager.get_association(server_url, assoc_handle)`:
linear scan of `get_all(server_url)` for the first entry whose handle
matches, `None` when there is none. -/
def BaseAssociationManager.get_association
    (assocs : List ConsumerAssociation) (assoc_handle : String) :
    Option ConsumerAssociation :=
  assocs.find? (fun a => a.handle = assoc_handle)

/-- Modelled from the spec: no concrete Store lives in this repository's
source; the spec's contract for `update(new_or_absent, list_of_expired)`
is "add the new entry if present and remove every listed expired entry".
Applying one `update` call to the stored list. -/
def storeUpdate (stored : List ConsumerAssociation)
    (upd : Option ConsumerAssociation × List ConsumerAssociation) :
    List ConsumerAssociation :=
  (stored.filter (fun a => decide (a ∉ upd.2))) ++ upd.1.toList

/-- The Store contents after all `update` calls of one
`associate` outcome have been applied. -/
def storeAfter (stored : List ConsumerAssociation)
    (out : AssociateOutcome) : List ConsumerAssociation :=
  out.updates.foldl storeUpdate stored

-- Characterisation lemmas for the scan loop.

/-- The expired accumulator collects exactly the expired entries, in
iteration order, behind whatever was accumulated before. -/
theorem scan_go_fst (now : Int) (l : List ConsumerAssociation)
    (exp : List ConsumerAssociation) (sel : Option ConsumerAssociation) :
    (l.foldl (BaseAssociationManager.scanStep now) (exp, sel)).1 =
      exp ++ l.filter (fun a => decide (a.get_expires_in now ≤ 0)) := by
  induction l generalizing exp sel with
  | nil => simp
  | cons a t ih =>
    by_cases h : a.get_expires_in now ≤ 0
    · simp [BaseAssociationManager.scanStep, h, ih]
    · cases sel with
      | none => simp [BaseAssociationManager.scanStep, h, ih]
      | some s => simp [BaseAssociationManager.scanStep, h, ih]

/-- Once the candidate is set it never changes. -/
theorem scan_go_snd_some (now : Int) (l : List ConsumerAssociation)
    (exp : List ConsumerAssociation) (a : ConsumerAssociation) :
    (l.foldl (BaseAssociationManager.scanStep now) (exp, some a)).2 =
      some a := by
  induction l generalizing exp with
  | nil => rfl
  | cons b t ih =>
    by_cases h : b.get_expires_in now ≤ 0 <;>
      simp [BaseAssociationManager.scanStep, h, ih]

/-- Starting unset, the candidate ends as the first non-expired entry. -/
theorem scan_go_snd_none (now : Int) (l : List ConsumerAssociation)
    (exp : List ConsumerAssociation) :
    (l.foldl (BaseAssociationManager.scanStep now) (exp, none)).2 =
      l.find? (fun a => decide (0 < a.get_expires_in now)) := by
  induction l generalizing exp with
  | nil => rfl
  | cons a t ih =>
    by_cases h : a.get_expires_in now ≤ 0
    · have hf : (decide (0 < a.get_expires_in now)) = false := by
        simp; omega
      simp [BaseAssociationManager.scanStep, h, ih, List.find?, hf]
    · have hf : (decide (0 < a.get_expires_in now)) = true := by
        simp; omega
      simp [BaseAssociationManager.scanStep, h, List.find?, hf,
        scan_go_snd_some]

/-- The `scan` loop summarised: expired part and selected candidate. -/
theorem scan_eq (now : Int) (assocs : List ConsumerAssociation) :
    BaseAssociationManager.scan now assocs =
      (assocs.filter (fun a => decide (a.get_expires_in now ≤ 0)),
       assocs.find? (fun a => decide (0 < a.get_expires_in now))) := by
  unfold BaseAssociationManager.scan
  refine Prod.ext ?_ ?_
  · simpa using scan_go_fst now assocs [] none
  · simpa using scan_go_snd_none now assocs []

/-- Shape of an `associate` call when the loop selected a cached entry. -/
theorem associate_def_some (now : Int) (stored : List ConsumerAssociation)
    (fresh a : ConsumerAssociation)
    (h : (BaseAssociationManager.scan now stored).2 = some a) :
    BaseAssociationManager.associate now stored fresh =
      { handle := a.handle
        new_assoc := none
        expired := (BaseAssociationManager.scan now stored).1
        updates :=
          if (BaseAssociationManager.scan now stored).1.isEmpty then []
          else [(none, (BaseAssociationManager.scan now stored).1)]
        handshake_calls := 0 } := by
  simp only [BaseAssociationManager.associate, h]

/-- Shape of an `associate` call when no cached entry was usable. -/
theorem associate_def_none (now : Int) (stored : List ConsumerAssociation)
    (fresh : ConsumerAssociation)
    (h : (BaseAssociationManager.scan now stored).2 = none) :
    BaseAssociationManager.associate now stored fresh =
      { handle := fresh.handle
        new_assoc := some fresh
        expired := (BaseAssociationManager.scan now stored).1
        updates := [(some fresh, (BaseAssociationManager.scan now stored).1)]
        handshake_calls := 1 } := by
  simp only [BaseAssociationManager.associate, h]

/-- Skipping elements on which `p` is anyway false does not change `find?`. -/
theorem find_skip_false {α : Type} (p q : α → Bool) (l : List α)
    (h : ∀ a, q a = false → p a = false) :
    (l.filter q).find? p = l.find? p := by
  induction l with
  | nil => rfl
  | cons a t ih =>
    cases hq : q a
    · have hp := h a hq
      simp [List.filter, hq, List.find?, hp, ih]
    · cases hp : p a <;> simp [List.filter, hq, List.find?, hp, ih]

/-- C4: for every Association and every current time `now`, `expires_in`
equals `max(0, issued + lifetime - now)`; consequently it is never
negative and is monotonically non-increasing as `now` advances while
`issued` and `lifetime` stay fixed. -/
theorem C4_expires_in_formula (a : Association) (now later : Int) :
    a.get_expires_in now = max 0 (a.issued + a.lifetime - now) ∧
    0 ≤ a.get_expires_in now ∧
    (now ≤ later → a.get_expires_in later ≤ a.get_expires_in now) := by
  refine ⟨rfl, le_max_left 0 _, fun h => ?_⟩
  unfold Association.get_expires_in
  omega

/-- Witness for C4 at a concrete association and times 12 ≤ 14. -/
theorem C4_expires_in_formula_witness :
    Association.get_expires_in
        { handle := "h", secret := [], issued := 10, lifetime := 5 } 14 ≤
      Association.get_expires_in
        { handle := "h", secret := [], issued := 10, lifetime := 5 } 12 :=
  (C4_expires_in_formula
    { handle := "h", secret := [], issued := 10, lifetime := 5 } 12 14).2.2
    (by decide)


/-- The handshake collaborator runs exactly when the loop selected no
cached candidate. -/
theorem associate_handshake_iff (now : Int)
    (stored : List ConsumerAssociation) (fresh : ConsumerAssociation) :
    (BaseAssociationManager.associate now stored fresh).handshake_calls = 1 ↔
      (BaseAssociationManager.scan now stored).2 = none := by
  cases hsel : (BaseAssociationManager.scan now stored).2 with
  | some a => rw [associate_def_some now stored fresh a hsel]; simp
  | none => rw [associate_def_none now stored fresh hsel]; simp

/-- The expired set reported by `associate` is the loop's expired set. -/
theorem associate_expired_eq (now : Int)
    (stored : List ConsumerAssociation) (fresh : ConsumerAssociation) :
    (BaseAssociationManager.associate now stored fresh).expired =
      (BaseAssociationManager.scan now stored).1 := by
  cases hsel : (BaseAssociationManager.scan now stored).2 with
  | some a => rw [associate_def_some now stored fresh a hsel]
  | none => rw [associate_def_none now stored fresh hsel]

/-- The expired set reported by `associate` is exactly the stored
entries with `expires_in <= 0`, in iteration order. -/
theorem associate_expired_filter (now : Int)
    (stored : List ConsumerAssociation) (fresh : ConsumerAssociation) :
    (BaseAssociationManager.associate now stored fresh).expired =
      stored.filter (fun a => decide (a.get_expires_in now ≤ 0)) := by
  rw [associate_expired_eq, scan_eq]

/-- C3: the loop of `associate` partitions `get_all(server_url)` in one
pass: the expired set is exactly the entries with `expires_in <= 0` (in
iteration order), the selected candidate is the first non-expired entry
(later non-expired entries are untouched), and the handshake
collaborator is invoked iff no non-expired entry exists. -/
theorem C3_partition_single_pass (now : Int)
    (stored : List ConsumerAssociation) (fresh : ConsumerAssociation) :
    (BaseAssociationManager.associate now stored fresh).expired =
      stored.filter (fun a => decide (a.get_expires_in now ≤ 0)) ∧
    (BaseAssociationManager.scan now stored).2 =
      stored.find? (fun a => decide (0 < a.get_expires_in now)) ∧
    ((BaseAssociationManager.associate now stored fresh).handshake_calls = 1 ↔
      ∀ a ∈ stored, a.get_expires_in now ≤ 0) := by
  have hscan := scan_eq now stored
  refine ⟨associate_expired_filter now stored fresh, by rw [hscan], ?_⟩
  · rw [associate_handshake_iff, hscan]
    simp only [List.find?_eq_none, decide_eq_true_eq]
    constructor
    · intro h a ha
      have := h a ha
      omega
    · intro h a ha
      have := h a ha
      omega

-- Concrete fixtures used by witnesses (call time is 100).

/-- An entry long expired at time 100. -/
def oldEntry : ConsumerAssociation :=
  { handle := "old", secret := [], issued := 0, lifetime := 10,
    server_url := "u" }

/-- An entry still valid at time 100. -/
def liveEntry : ConsumerAssociation :=
  { handle := "live", secret := [], issued := 90, lifetime := 50,
    server_url := "u" }

/-- A fresh association as the handshake collaborator would mint it. -/
def freshEntry : ConsumerAssociation :=
  ConsumerAssociation.from_expires_in 100 60 "u" "new" []

/-- Witness for C3 on a concrete two-entry store (one expired entry,
one live entry): the expired set is the expired entry alone and no
handshake happens. -/
theorem C3_partition_single_pass_witness :
    (BaseAssociationManager.associate 100 [oldEntry, liveEntry]
        freshEntry).expired = [oldEntry] ∧
    ¬ (BaseAssociationManager.associate 100 [oldEntry, liveEntry]
        freshEntry).handshake_calls = 1 := by
  have h := C3_partition_single_pass 100 [oldEntry, liveEntry] freshEntry
  refine ⟨by rw [h.1]; decide, fun hc => ?_⟩
  have h2 := h.2.2.mp hc liveEntry (by decide)
  revert h2
  decide

/-- C5: within one `associate` call the Store's `update` is invoked
exactly once — with the new association (or nothing) and every expired
entry — when a new association was created or at least one expired
entry was found; otherwise `update` is not invoked at all. -/
theorem C5_update_exactly_once (now : Int)
    (stored : List ConsumerAssociation) (fresh : ConsumerAssociation) :
    ((BaseAssociationManager.associate now stored fresh).new_assoc.isSome ∨
        (BaseAssociationManager.associate now stored fresh).expired ≠ [] →
      (BaseAssociationManager.associate now stored fresh).updates =
        [((BaseAssociationManager.associate now stored fresh).new_assoc,
          (BaseAssociationManager.associate now stored fresh).expired)]) ∧
    ((BaseAssociationManager.associate now stored fresh).new_assoc = none ∧
        (BaseAssociationManager.associate now stored fresh).expired = [] →
      (BaseAssociationManager.associate now stored fresh).updates = []) ∧
    (BaseAssociationManager.associate now stored fresh).expired =
      stored.filter (fun a => decide (a.get_expires_in now ≤ 0)) := by
  refine ⟨?_, ?_, associate_expired_filter now stored fresh⟩
  · cases hsel : (BaseAssociationManager.scan now stored).2 with
    | some a =>
      simp only [associate_def_some now stored fresh a hsel,
        Option.isSome_none, Bool.false_eq_true, false_or]
      intro hne
      cases hE : (BaseAssociationManager.scan now stored).1 with
      | nil => exact absurd hE hne
      | cons b t => simp
    | none =>
      simp only [associate_def_none now stored fresh hsel]
      intro _
      trivial
  · cases hsel : (BaseAssociationManager.scan now stored).2 with
    | some a =>
      simp only [associate_def_some now stored fresh a hsel]
      rintro ⟨-, h2⟩
      rw [h2]
      simp
    | none =>
      simp only [associate_def_none now stored fresh hsel]
      rintro ⟨h1, -⟩
      exact absurd h1 (by simp)

/-- Witness for C5: with one expired and one live entry, `update` runs
once with no new association and precisely the expired entry. -/
theorem C5_update_exactly_once_witness :
    (BaseAssociationManager.associate 100 [oldEntry, liveEntry]
        freshEntry).updates = [(none, [oldEntry])] := by
  have h := (C5_update_exactly_once 100 [oldEntry, liveEntry] freshEntry).1
    (Or.inr (by decide))
  rw [h]
  decide

/-- C2 counterexample: with an empty store, the handshake mints an
association whose provider lifetime is 0 (the code's default when
`expires_in` is absent from the response), so its `expires_in` is
already ≤ 0 at call time — yet `associate` returns its handle. -/
theorem C2_counterexample :
    (BaseAssociationManager.associate 100 []
        (ConsumerAssociation.from_expires_in 100 0 "u" "h1" [])).handle =
      (ConsumerAssociation.from_expires_in 100 0 "u" "h1" []).handle ∧
    (ConsumerAssociation.from_expires_in 100 0 "u" "h1"
        []).get_expires_in 100 ≤ 0 := by
  constructor
  · rfl
  · decide

/-- C2 amended: `associate` never returns the handle of a *cached*
association whose `expires_in` is ≤ 0 at call time — whenever no
handshake happened, the returned handle belongs to a stored entry with
`expires_in > 0`; when a handshake did happen, the fresh association's
handle is returned unconditionally, even if its `expires_in` is
already ≤ 0. -/
theorem C2_no_expired_cached_handle (now : Int)
    (stored : List ConsumerAssociation) (fresh : ConsumerAssociation) :
    ((BaseAssociationManager.associate now stored fresh).handshake_calls = 0 →
      ∃ a, a ∈ stored ∧ 0 < a.get_expires_in now ∧
        (BaseAssociationManager.associate now stored fresh).handle =
          a.handle) ∧
    ((BaseAssociationManager.associate now stored fresh).handshake_calls ≠ 0 →
      (BaseAssociationManager.associate now stored fresh).handle =
        fresh.handle) := by
  cases hsel : (BaseAssociationManager.scan now stored).2 with
  | some a =>
    have hfind : stored.find?
        (fun x => decide (0 < x.get_expires_in now)) = some a := by
      have := scan_eq now stored
      rw [this] at hsel
      exact hsel
    refine ⟨fun _ => ⟨a, List.mem_of_find?_eq_some hfind, ?_, ?_⟩, fun hne => ?_⟩
    · have := List.find?_some hfind
      simpa using this
    · simp only [associate_def_some now stored fresh a hsel]
    · exact absurd (by simp only [associate_def_some now stored fresh a hsel])
        hne
  | none =>
    refine ⟨fun h0 => ?_, fun _ => ?_⟩
    · exact absurd h0 (by simp only [associate_def_none now stored fresh hsel]; simp)
    · simp only [associate_def_none now stored fresh hsel]

/-- Witness for the amended C2: with the live entry cached, the call
returns that entry's handle and the entry is non-expired. -/
theorem C2_no_expired_cached_handle_witness :
    ∃ a, a ∈ [oldEntry, liveEntry] ∧ 0 < a.get_expires_in 100 ∧
      (BaseAssociationManager.associate 100 [oldEntry, liveEntry]
          freshEntry).handle = a.handle :=
  (C2_no_expired_cached_handle 100 [oldEntry, liveEntry] freshEntry).1
    (by decide)

/-- C9: `get_association` returns the first cached entry whose handle
matches exactly (expiry is not consulted), and `None` exactly when no
entry matches; absence is a normal outcome, not an error. -/
theorem C9_get_association_lookup (assocs : List ConsumerAssociation)
    (handle : String) :
    (BaseAssociationManager.get_association assocs handle = none ↔
      ∀ a ∈ assocs, a.handle ≠ handle) ∧
    (∀ a, BaseAssociationManager.get_association assocs handle = some a →
      a ∈ assocs ∧ a.handle = handle) := by
  constructor
  · unfold BaseAssociationManager.get_association
    rw [List.find?_eq_none]
    simp
  · intro a ha
    exact ⟨List.mem_of_find?_eq_some ha, by simpa using List.find?_some ha⟩

/-- Witness for C9: the expired entry is still found by its handle. -/
theorem C9_get_association_lookup_witness :
    oldEntry ∈ [oldEntry, liveEntry] ∧ oldEntry.handle = "old" :=
  (C9_get_association_lookup [oldEntry, liveEntry] "old").2 oldEntry (by decide)

/-- When a cached candidate was selected, the `associate` call's Store
updates only remove expired entries, so the first non-expired entry of
the Store is unchanged. -/
theorem find_after_no_handshake (now : Int)
    (stored : List ConsumerAssociation) (fresh a0 : ConsumerAssociation)
    (hsel : (BaseAssociationManager.scan now stored).2 = some a0) :
    (storeAfter stored
        (BaseAssociationManager.associate now stored fresh)).find?
        (fun x => decide (0 < x.get_expires_in now)) =
      stored.find? (fun x => decide (0 < x.get_expires_in now)) := by
  have hfst : (BaseAssociationManager.scan now stored).1 =
      stored.filter (fun x => decide (x.get_expires_in now ≤ 0)) := by
    rw [scan_eq]
  simp only [associate_def_some now stored fresh a0 hsel, storeAfter]
  cases hE : (BaseAssociationManager.scan now stored).1.isEmpty with
  | true => simp
  | false =>
    simp only [Bool.false_eq_true, if_false, List.foldl_cons, List.foldl_nil,
      storeUpdate, Option.toList_none, List.append_nil]
    apply find_skip_false
    intro x hx
    simp only [decide_eq_false_iff_not, Decidable.not_not] at hx
    rw [hfst] at hx
    have hxe := (List.mem_filter.mp hx).2
    simp only [decide_eq_true_eq] at hxe
    simp only [decide_eq_false_iff_not]
    omega

/-- C6: calling `associate` twice in immediate succession with a
non-expired cached entry present performs zero handshakes in both calls
and returns the same handle both times (the second call runs against
the Store as the first call's `update` left it). -/
theorem C6_idempotent_reuse (now : Int) (stored : List ConsumerAssociation)
    (fresh1 fresh2 : ConsumerAssociation)
    (h : ∃ a ∈ stored, 0 < a.get_expires_in now) :
    (BaseAssociationManager.associate now stored fresh1).handshake_calls = 0 ∧
    (BaseAssociationManager.associate now
        (storeAfter stored (BaseAssociationManager.associate now stored fresh1))
        fresh2).handshake_calls = 0 ∧
    (BaseAssociationManager.associate now
        (storeAfter stored (BaseAssociationManager.associate now stored fresh1))
        fresh2).handle =
      (BaseAssociationManager.associate now stored fresh1).handle := by
  obtain ⟨a0, ha0, hp⟩ := h
  have hfindsome : (stored.find?
      (fun x => decide (0 < x.get_expires_in now))).isSome := by
    rw [List.find?_isSome]
    exact ⟨a0, ha0, by simpa using hp⟩
  obtain ⟨b, hb⟩ := Option.isSome_iff_exists.mp hfindsome
  have hsel1 : (BaseAssociationManager.scan now stored).2 = some b := by
    rw [scan_eq]
    exact hb
  have hfind2 := find_after_no_handshake now stored fresh1 b hsel1
  have hsel2 : (BaseAssociationManager.scan now
      (storeAfter stored
        (BaseAssociationManager.associate now stored fresh1))).2 = some b := by
    rw [scan_eq]
    show (storeAfter stored
        (BaseAssociationManager.associate now stored fresh1)).find?
        (fun x => decide (0 < x.get_expires_in now)) = some b
    rw [hfind2, hb]
  refine ⟨?_, ?_, ?_⟩
  · simp only [associate_def_some now stored fresh1 b hsel1]
  · simp only [associate_def_some now _ fresh2 b hsel2]
  · rw [associate_def_some now _ fresh2 b hsel2,
      associate_def_some now stored fresh1 b hsel1]

/-- Witness for C6 at the concrete two-entry store: both calls return
"live" and neither performs a handshake. -/
theorem C6_idempotent_reuse_witness :
    (BaseAssociationManager.associate 100 [oldEntry, liveEntry]
        freshEntry).handshake_calls = 0 ∧
    (BaseAssociationManager.associate 100
        (storeAfter [oldEntry, liveEntry]
          (BaseAssociationManager.associate 100 [oldEntry, liveEntry]
            freshEntry))
        freshEntry).handshake_calls = 0 ∧
    (BaseAssociationManager.associate 100
        (storeAfter [oldEntry, liveEntry]
          (BaseAssociationManager.associate 100 [oldEntry, liveEntry]
            freshEntry))
        freshEntry).handle =
      (BaseAssociationManager.associate 100 [oldEntry, liveEntry]
        freshEntry).handle :=
  C6_idempotent_reuse 100 [oldEntry, liveEntry] freshEntry freshEntry
    ⟨liveEntry, by decide, by decide⟩

-- The Diffie-Hellman handshake response processing.

/-- Error taxonomy of `DiffieHelmanAssociator.associate`:
`ProtocolError` (from `openid.errors`) for a missing required response
field, `RuntimeError` for an unsupported association or session type,
`ValueError` for decoding problems (`int()` on a malformed string,
XOR of mismatched lengths). -/
inductive HandshakeError where
  | protocolError (msg : String)
  | runtimeError (msg : String)
  | valueError (msg : String)
deriving DecidableEq

/-- Modelled from the spec: the encoding and hashing primitives of
`openid.util` (`from_b64`, `sha1`, `long2a`, `a2long`) are collaborators
outside this repository's source ("assumed-correct collaborators"), so
they are abstract parameters of the embedding. -/
structure UtilPrims where
  from_b64 : String → Bytes
  sha1 : Bytes → Bytes
  long2a : Nat → Bytes
  a2long : Bytes → Nat

/-- Modelled from the spec: `strxor` of `openid.util` is outside this
repository's source; per the spec it is the byte-wise XOR of two
equal-length byte strings, and mismatched lengths are an error. -/
def strxor (a b : Bytes) : Option Bytes :=
  if a.length = b.length then some (List.zipWith Nat.xor a b) else none

/-- Modelled from the spec: `DiffieHellman.decryptKeyExchange` of
`openid.util` is outside this repository's source; per the spec the
shared DH value is `spub ^ private mod modulus`. -/
def decryptKeyExchange (p xa spub : Nat) : Nat := spub ^ xa % p

/-- Lookup in the parsed key/value response (`results[key]` /
`results.get(key)` on the mapping `parsekv` returned). -/
def lookupResult (results : List (String × String)) (key : String) :
    Option String :=
  (results.find? (fun kv => kv.1 = key)).map Prod.snd

/-- The message of the `ProtocolError` raised for a missing response
field: it names the field and echoes the raw response body. -/
def missingMsg (key data : String) : String :=
  "Association server response missing argument " ++ key ++ ":\n" ++ data

/-- The inner `getResult` of `DiffieHelmanAssociator.associate`:
a present key yields its value, an absent key raises `ProtocolError`
with the field name and raw response body. -/
def getResult (results : List (String × String)) (data key : String) :
    Except HandshakeError String :=
  match lookupResult results key with
  | some v => Except.ok v
  | none => Except.error (HandshakeError.protocolError (missingMsg key data))

/-- Accumulate decimal digits; any non-digit character fails. -/
def decDigits (cs : List Char) (acc : Nat) : Option Nat :=
  match cs with
  | [] => some acc
  | c :: rest =>
    if c.isDigit then decDigits rest (acc * 10 + (c.toNat - 48)) else none

/-- Python's `int()` on a decimal string: optional sign then at least
one digit; anything else raises `ValueError`.  (The whitespace
tolerance of `int()` is not modelled; no claim depends on it.) -/
def pyInt (s : String) : Option Int :=
  match s.data with
  | [] => none
  | '-' :: rest =>
    match rest with
    | [] => none
    | _ => (decDigits rest 0).map (fun n => -(n : Int))
  | '+' :: rest =>
    match rest with
    | [] => none
    | _ => (decDigits rest 0).map (fun n => (n : Int))
  | cs => (decDigits cs 0).map (fun n => (n : Int))

/-- Python's `int()` applied to a response string; a non-numeric string
raises `ValueError`. -/
def parseInt (s : String) : Except HandshakeError Int :=
  match pyInt s with
  | some n => Except.ok n
  | none =>
    Except.error (HandshakeError.valueError
      ("invalid literal for int(): " ++ s))

/-- The response processing of `DiffieHelmanAssociator.associate`,
from `results = parsekv(data)` onward: validate `assoc_type`, read
`assoc_handle`, default `expires_in` to "0", branch on `session_type`
(absent: secret is the base64-decoded `mac_key`; "DH-SHA1": secret is
the decoded `enc_mac_key` XORed with SHA-1 of the encoded shared DH
value; anything else: fatal error), then build the
`ConsumerAssociation` via `from_expires_in` (which performs the `int()`
conversion of `expires_in`).  `p` and `xa` are the DH modulus and the
consumer's private exponent. -/
def DiffieHelmanAssociator.processResponse (u : UtilPrims) (p xa : Nat)
    (server_url : String) (now : Int)
    (results : List (String × String)) (data : String) :
    Except HandshakeError ConsumerAssociation :=
  match getResult results data "assoc_type" with
  | Except.error e => Except.error e
  | Except.ok assoc_type =>
    if assoc_type ≠ "HMAC-SHA1" then
      Except.error (HandshakeError.runtimeError
        ("Unknown association type: " ++ assoc_type))
    else
      match getResult results data "assoc_handle" with
      | Except.error e => Except.error e
      | Except.ok assoc_handle =>
        let expires_in_s := (lookupResult results "expires_in").getD "0"
        let secretE : Except HandshakeError Bytes :=
          match lookupResult results "session_type" with
          | none =>
            match getResult results data "mac_key" with
            | Except.error e => Except.error e
            | Except.ok mac_key => Except.ok (u.from_b64 mac_key)
          | some session_type =>
            if session_type ≠ "DH-SHA1" then
              Except.error (HandshakeError.runtimeError
                ("Unknown Session Type: " ++ session_type))
            else
              match getResult results data "dh_server_public" with
              | Except.error e => Except.error e
              | Except.ok dsp =>
                let spub := u.a2long (u.from_b64 dsp)
                let dh_shared := decryptKeyExchange p xa spub
                match getResult results data "enc_mac_key" with
                | Except.error e => Except.error e
                | Except.ok enc_mac_key =>
                  match strxor (u.from_b64 enc_mac_key)
                      (u.sha1 (u.long2a dh_shared)) with
                  | some s => Except.ok s
                  | none =>
                    Except.error (HandshakeError.valueError
                      "strxor: length mismatch")
        match secretE with
        | Except.error e => Except.error e
        | Except.ok secret =>
          match parseInt expires_in_s with
          | Except.error e => Except.error e
          | Except.ok expires_in =>
            Except.ok (ConsumerAssociation.from_expires_in now expires_in
              server_url assoc_handle secret)

/-- A successful `strxor` is the byte-wise XOR. -/
theorem strxor_some (a b s : Bytes) (h : strxor a b = some s) :
    s = List.zipWith Nat.xor a b := by
  unfold strxor at h
  split at h
  · exact (Option.some.inj h).symm
  · exact absurd h (by simp)

/-- C1: when the response carries `session_type = "DH-SHA1"`, the
recovered secret is the byte-wise XOR of the base64-decoded
`enc_mac_key` with SHA-1 of the big-integer byte encoding of the shared
DH value `spub ^ private mod modulus`; when `session_type` is absent,
the secret is exactly the base64 decoding of `mac_key`. -/
theorem C1_secret_recovery (u : UtilPrims) (p xa : Nat)
    (server_url data : String) (now : Int)
    (results : List (String × String)) :
    (∀ dsp emk a,
      lookupResult results "session_type" = some "DH-SHA1" →
      lookupResult results "dh_server_public" = some dsp →
      lookupResult results "enc_mac_key" = some emk →
      DiffieHelmanAssociator.processResponse u p xa server_url now results
          data = Except.ok a →
      a.secret = List.zipWith Nat.xor (u.from_b64 emk)
        (u.sha1 (u.long2a (u.a2long (u.from_b64 dsp) ^ xa % p)))) ∧
    (∀ mk a,
      lookupResult results "session_type" = none →
      lookupResult results "mac_key" = some mk →
      DiffieHelmanAssociator.processResponse u p xa server_url now results
          data = Except.ok a →
      a.secret = u.from_b64 mk) := by
  constructor
  · intro dsp emk a hst hdsp hemk hok
    simp only [DiffieHelmanAssociator.processResponse, getResult, hst, hdsp,
      hemk] at hok
    cases hat : lookupResult results "assoc_type" with
    | none => simp [hat] at hok
    | some t =>
      simp only [hat] at hok
      by_cases ht : t = "HMAC-SHA1"
      · subst ht
        simp only [ne_eq, not_true_eq_false, if_false, reduceIte] at hok
        cases hah : lookupResult results "assoc_handle" with
        | none => simp [hah] at hok
        | some hdl =>
          simp only [hah] at hok
          cases hx : strxor (u.from_b64 emk)
              (u.sha1 (u.long2a (decryptKeyExchange p xa
                (u.a2long (u.from_b64 dsp))))) with
          | none => simp [hx] at hok
          | some s =>
            simp only [hx] at hok
            cases hei : parseInt ((lookupResult results "expires_in").getD "0") with
            | error e => simp [hei] at hok
            | ok n =>
              simp only [hei] at hok
              have ha : ConsumerAssociation.from_expires_in now n server_url
                  hdl s = a := Except.ok.inj hok
              have hs := strxor_some _ _ _ hx
              rw [← ha]
              unfold ConsumerAssociation.from_expires_in
              simp only
              rw [hs]
              unfold decryptKeyExchange
              rfl
      · simp [ht] at hok
  · intro mk a hst hmk hok
    simp only [DiffieHelmanAssociator.processResponse, getResult, hst,
      hmk] at hok
    cases hat : lookupResult results "assoc_type" with
    | none => simp [hat] at hok
    | some t =>
      simp only [hat] at hok
      by_cases ht : t = "HMAC-SHA1"
      · subst ht
        simp only [ne_eq, not_true_eq_false, if_false, reduceIte] at hok
        cases hah : lookupResult results "assoc_handle" with
        | none => simp [hah] at hok
        | some hdl =>
          simp only [hah] at hok
          cases hei : parseInt ((lookupResult results "expires_in").getD "0") with
          | error e => simp [hei] at hok
          | ok n =>
            simp only [hei] at hok
            have ha : ConsumerAssociation.from_expires_in now n server_url
                hdl (u.from_b64 mk) = a := Except.ok.inj hok
            rw [← ha]
            rfl
      · simp [ht] at hok

/-- Decidable equality for handshake outcomes, used to evaluate the
embedding at concrete witness inputs. -/
instance : DecidableEq (Except HandshakeError ConsumerAssociation) :=
  fun a b =>
    match a, b with
    | Except.ok x, Except.ok y => decidable_of_iff (x = y) (by simp)
    | Except.error x, Except.error y => decidable_of_iff (x = y) (by simp)
    | Except.ok _, Except.error _ => Decidable.isFalse (by simp)
    | Except.error _, Except.ok _ => Decidable.isFalse (by simp)

/-- Tiny concrete primitives for witnesses: decode a base64 string to
its length as a single byte, identity hash, singleton big-integer
encoding, summed decoding. -/
def wPrims : UtilPrims :=
  { from_b64 := fun s => [s.length]
    sha1 := fun b => b
    long2a := fun n => [n]
    a2long := fun b => b.foldl (fun x y => x + y) 0 }

/-- A concrete DH-mode provider response with every field present
except `expires_in`. -/
def wResultsDH : List (String × String) :=
  [("assoc_type", "HMAC-SHA1"), ("assoc_handle", "H"),
   ("session_type", "DH-SHA1"), ("dh_server_public", "abcd"),
   ("enc_mac_key", "yz")]

/-- Witness for C1 at the concrete response: `spub = 4`, `xa = 3`,
`p = 7`, so the shared value is `4 ^ 3 % 7 = 1` and the secret is
`[2] XOR [1] = [3]`. -/
theorem C1_secret_recovery_witness :
    (ConsumerAssociation.from_expires_in 100 0 "u" "H" [3]).secret =
      List.zipWith Nat.xor (wPrims.from_b64 "yz")
        (wPrims.sha1 (wPrims.long2a
          (wPrims.a2long (wPrims.from_b64 "abcd") ^ 3 % 7))) :=
  (C1_secret_recovery wPrims 7 3 "u" "raw" 100 wResultsDH).1 "abcd" "yz"
    (ConsumerAssociation.from_expires_in 100 0 "u" "H" [3])
    rfl rfl rfl (by decide)

/-- C7: an `assoc_type` other than "HMAC-SHA1", or a present
`session_type` other than "DH-SHA1", raises a fatal `RuntimeError` —
a different error class from the `ProtocolError` used for missing
fields — and no `ConsumerAssociation` is produced (the call result is
an error, not a value to cache). -/
theorem C7_unsupported_type_fatal (u : UtilPrims) (p xa : Nat)
    (server_url data : String) (now : Int)
    (results : List (String × String)) :
    (∀ t, lookupResult results "assoc_type" = some t → t ≠ "HMAC-SHA1" →
      DiffieHelmanAssociator.processResponse u p xa server_url now results
          data =
        Except.error (HandshakeError.runtimeError
          ("Unknown association type: " ++ t))) ∧
    (∀ hdl st, lookupResult results "assoc_type" = some "HMAC-SHA1" →
      lookupResult results "assoc_handle" = some hdl →
      lookupResult results "session_type" = some st → st ≠ "DH-SHA1" →
      DiffieHelmanAssociator.processResponse u p xa server_url now results
          data =
        Except.error (HandshakeError.runtimeError
          ("Unknown Session Type: " ++ st))) ∧
    (∀ m m', HandshakeError.runtimeError m ≠
      HandshakeError.protocolError m') := by
  refine ⟨?_, ?_, fun m m' h => HandshakeError.noConfusion h⟩
  · intro t hat hne
    simp only [DiffieHelmanAssociator.processResponse, getResult, hat]
    rw [if_pos hne]
  · intro hdl st hat hah hst hne
    simp only [DiffieHelmanAssociator.processResponse, getResult, hat, hah,
      hst]
    simp [hne]

/-- Witness for C7: a response advertising "HMAC-SHA256" is rejected
with the unsupported-algorithm error. -/
theorem C7_unsupported_type_fatal_witness :
    DiffieHelmanAssociator.processResponse wPrims 7 3 "u" 100
        [("assoc_type", "HMAC-SHA256")] "raw" =
      Except.error (HandshakeError.runtimeError
        ("Unknown association type: " ++ "HMAC-SHA256")) :=
  (C7_unsupported_type_fatal wPrims 7 3 "u" "raw" 100
      [("assoc_type", "HMAC-SHA256")]).1 "HMAC-SHA256" rfl (by decide)

/-- C10: `assoc_type` is checked (presence, then value) before
`assoc_handle` is read, so a response that both lacks `assoc_handle`
and carries an unsupported `assoc_type` fails with the fatal
unsupported-algorithm `RuntimeError`, never the missing-`assoc_handle`
`ProtocolError`. -/
theorem C10_assoc_type_checked_first (u : UtilPrims) (p xa : Nat)
    (server_url data : String) (now : Int)
    (results : List (String × String)) :
    ∀ t, lookupResult results "assoc_type" = some t → t ≠ "HMAC-SHA1" →
      lookupResult results "assoc_handle" = none →
      DiffieHelmanAssociator.processResponse u p xa server_url now results
          data =
        Except.error (HandshakeError.runtimeError
          ("Unknown association type: " ++ t)) ∧
      ∀ m, DiffieHelmanAssociator.processResponse u p xa server_url now
          results data ≠
        Except.error (HandshakeError.protocolError m) := by
  intro t hat hne hah
  have heq : DiffieHelmanAssociator.processResponse u p xa server_url now
      results data =
      Except.error (HandshakeError.runtimeError
        ("Unknown association type: " ++ t)) := by
    simp only [DiffieHelmanAssociator.processResponse, getResult, hat]
    rw [if_pos hne]
  refine ⟨heq, fun m hcontra => ?_⟩
  rw [heq] at hcontra
  exact HandshakeError.noConfusion (Except.error.inj hcontra)

/-- Witness for C10: unsupported `assoc_type` and missing
`assoc_handle` together yield the unsupported-algorithm error. -/
theorem C10_assoc_type_checked_first_witness :
    DiffieHelmanAssociator.processResponse wPrims 7 3 "u" 100
        [("assoc_type", "HMAC-SHA256"), ("session_type", "DH-SHA1")] "raw" =
      Except.error (HandshakeError.runtimeError
        ("Unknown association type: " ++ "HMAC-SHA256")) :=
  ((C10_assoc_type_checked_first wPrims 7 3 "u" "raw" 100
      [("assoc_type", "HMAC-SHA256"), ("session_type", "DH-SHA1")])
    "HMAC-SHA256" rfl (by decide) rfl).1

/-- String concatenation is associative (on the underlying data). -/
theorem string_append_assoc (a b c : String) :
    a ++ b ++ c = a ++ (b ++ c) := by
  apply String.ext
  simp [String.data_append]

/-- C8: every required response field that is absent (`assoc_type`,
`assoc_handle`, and per branch `mac_key`, `dh_server_public`,
`enc_mac_key`) raises a `ProtocolError` whose message names the
missing field and includes the raw response body; `expires_in` is not
required and defaults to "0" (lifetime 0) when absent. -/
theorem C8_missing_required_fields (u : UtilPrims) (p xa : Nat)
    (server_url data : String) (now : Int)
    (results : List (String × String)) :
    (lookupResult results "assoc_type" = none →
      DiffieHelmanAssociator.processResponse u p xa server_url now results
          data =
        Except.error (HandshakeError.protocolError
          (missingMsg "assoc_type" data))) ∧
    (lookupResult results "assoc_type" = some "HMAC-SHA1" →
      lookupResult results "assoc_handle" = none →
      DiffieHelmanAssociator.processResponse u p xa server_url now results
          data =
        Except.error (HandshakeError.protocolError
          (missingMsg "assoc_handle" data))) ∧
    (∀ hdl, lookupResult results "assoc_type" = some "HMAC-SHA1" →
      lookupResult results "assoc_handle" = some hdl →
      lookupResult results "session_type" = none →
      lookupResult results "mac_key" = none →
      DiffieHelmanAssociator.processResponse u p xa server_url now results
          data =
        Except.error (HandshakeError.protocolError
          (missingMsg "mac_key" data))) ∧
    (∀ hdl, lookupResult results "assoc_type" = some "HMAC-SHA1" →
      lookupResult results "assoc_handle" = some hdl →
      lookupResult results "session_type" = some "DH-SHA1" →
      lookupResult results "dh_server_public" = none →
      DiffieHelmanAssociator.processResponse u p xa server_url now results
          data =
        Except.error (HandshakeError.protocolError
          (missingMsg "dh_server_public" data))) ∧
    (∀ hdl dsp, lookupResult results "assoc_type" = some "HMAC-SHA1" →
      lookupResult results "assoc_handle" = some hdl →
      lookupResult results "session_type" = some "DH-SHA1" →
      lookupResult results "dh_server_public" = some dsp →
      lookupResult results "enc_mac_key" = none →
      DiffieHelmanAssociator.processResponse u p xa server_url now results
          data =
        Except.error (HandshakeError.protocolError
          (missingMsg "enc_mac_key" data))) ∧
    (lookupResult results "expires_in" = none →
      ∀ a, DiffieHelmanAssociator.processResponse u p xa server_url now
          results data = Except.ok a →
        a.lifetime = 0) ∧
    (∀ key d, ∃ s1 s2 : String,
      missingMsg key d = s1 ++ (key ++ (s2 ++ d))) := by
  refine ⟨?_, ?_, ?_, ?_, ?_, ?_, ?_⟩
  · intro hat
    simp [DiffieHelmanAssociator.processResponse, getResult, hat]
  · intro hat hah
    simp [DiffieHelmanAssociator.processResponse, getResult, hat, hah]
  · intro hdl hat hah hst hmk
    simp [DiffieHelmanAssociator.processResponse, getResult, hat, hah, hst,
      hmk]
  · intro hdl hat hah hst hdsp
    simp [DiffieHelmanAssociator.processResponse, getResult, hat, hah, hst,
      hdsp]
  · intro hdl dsp hat hah hst hdsp hemk
    simp [DiffieHelmanAssociator.processResponse, getResult, hat, hah, hst,
      hdsp, hemk]
  · intro hei a hok
    simp only [DiffieHelmanAssociator.processResponse, getResult, hei,
      Option.getD_none] at hok
    have h0 : parseInt "0" = Except.ok 0 := rfl
    rw [h0] at hok
    cases hat : lookupResult results "assoc_type" with
    | none => simp [hat] at hok
    | some t =>
      simp only [hat] at hok
      by_cases ht : t = "HMAC-SHA1"
      · subst ht
        simp only [ne_eq, not_true_eq_false, if_false, reduceIte] at hok
        cases hah : lookupResult results "assoc_handle" with
        | none => simp [hah] at hok
        | some hdl =>
          simp only [hah] at hok
          cases hst : lookupResult results "session_type" with
          | none =>
            cases hmk : lookupResult results "mac_key" with
            | none => simp [hst, hmk] at hok
            | some mk =>
              simp only [hst, hmk] at hok
              rw [← Except.ok.inj hok]
              rfl
          | some st =>
            by_cases hs : st = "DH-SHA1"
            · subst hs
              simp only [hst, ne_eq, not_true_eq_false, if_false,
                reduceIte] at hok
              cases hdsp : lookupResult results "dh_server_public" with
              | none => simp [hdsp] at hok
              | some dsp =>
                simp only [hdsp] at hok
                cases hemk : lookupResult results "enc_mac_key" with
                | none => simp [hemk] at hok
                | some emk =>
                  simp only [hemk] at hok
                  cases hx : strxor (u.from_b64 emk)
                      (u.sha1 (u.long2a (decryptKeyExchange p xa
                        (u.a2long (u.from_b64 dsp))))) with
                  | none => simp [hx] at hok
                  | some s =>
                    simp only [hx] at hok
                    rw [← Except.ok.inj hok]
                    rfl
            · simp [hst, hs] at hok
      · simp [ht] at hok
  · intro key d
    refine ⟨"Association server response missing argument ", ":\n", ?_⟩
    unfold missingMsg
    rw [string_append_assoc, string_append_assoc]

/-- Witness for C8: a response with a valid `assoc_type` but no
`assoc_handle` yields the `ProtocolError` naming `assoc_handle` and
echoing the body. -/
theorem C8_missing_required_fields_witness :
    DiffieHelmanAssociator.processResponse wPrims 7 3 "u" 100
        [("assoc_type", "HMAC-SHA1")] "raw-body" =
      Except.error (HandshakeError.protocolError
        (missingMsg "assoc_handle" "raw-body")) :=
  (C8_missing_required_fields wPrims 7 3 "u" "raw-body" 100
      [("assoc_type", "HMAC-SHA1")]).2.1 rfl rfl
